import Mathlib

/-!
Verification of the investment-analysis engine in `src/app.py`.

The Python numbers (prices, incomes, percentages) are modelled as exact
rationals (`ℚ`); Python division on a nonzero denominator matches `ℚ`
division, and the places where Python would raise `ZeroDivisionError` are
modelled explicitly with `Except` (see `compare_entry`).  Strings are
modelled as `List Char`; record ids as `Int` (sqlite integers).
-/

/-- Risk levels / risk tolerances: the source uses the strings
`'Low'`, `'Medium'`, `'High'`. -/
inductive RiskLevel where
  | Low
  | Medium
  | High
deriving DecidableEq

/-- A row of the `properties` table, with the fields the engine reads. -/
structure Property where
  id : Int
  location : List Char
  price : ℚ
  size : ℚ
  annual_rental_income : ℚ
  maintenance_cost : ℚ
  risk_level : RiskLevel

/-- An investor profile (stored row or inline custom profile), with the
fields the engine reads.  `preferred_locations` is the raw comma-separated
string; the empty list models both the empty string and SQL NULL, which are
equally falsy in the Python `if profile['preferred_locations']:` test. -/
structure Profile where
  budget_min : ℚ
  budget_max : ℚ
  risk_tolerance : RiskLevel
  preferred_locations : List Char
  min_rental_yield : ℚ
  min_roi : ℚ

/-- `calculate_rental_yield` from `src/app.py` lines 118-120. -/
def calculate_rental_yield (annual_rental_income property_price : ℚ) : ℚ :=
  annual_rental_income / property_price * 100

/-- `calculate_net_roi` from `src/app.py` lines 122-125. -/
def calculate_net_roi (annual_rental_income maintenance_cost property_price : ℚ) : ℚ :=
  (annual_rental_income - maintenance_cost) / property_price * 100

/-- The price-fit component of `calculate_investment_score`
(`src/app.py` lines 135-146): 25 inside the budget range, otherwise
`max(0, 25 - (price_ratio - 1) * 50)` with the ratio taken against
`budget_max` above the range and against `budget_min` below it. -/
def price_fit (property : Property) (profile : Profile) : ℚ :=
  if profile.budget_min ≤ property.price ∧ property.price ≤ profile.budget_max then
    25
  else
    max 0 (25 -
      ((if profile.budget_max < property.price then
          property.price / profile.budget_max
        else
          profile.budget_min / property.price) - 1) * 50)

/-- The `risk_match` lookup table of `calculate_investment_score`
(`src/app.py` lines 148-154); first argument the investor's
`risk_tolerance`, second the property's `risk_level`. -/
def risk_match : RiskLevel → RiskLevel → ℚ
  | .Low, .Low => 20
  | .Low, .Medium => 10
  | .Low, .High => 5
  | .Medium, .Low => 15
  | .Medium, .Medium => 20
  | .Medium, .High => 15
  | .High, .Low => 10
  | .High, .Medium => 15
  | .High, .High => 20

/-- The rental-yield component of `calculate_investment_score`
(`src/app.py` lines 162-172). -/
def yield_score (property : Property) (profile : Profile) : ℚ :=
  let rental_yield := calculate_rental_yield property.annual_rental_income property.price
  if profile.min_rental_yield ≤ rental_yield then
    min 30 (20 + (rental_yield - profile.min_rental_yield) * 2)
  else
    max 0 (20 - (profile.min_rental_yield - rental_yield) * 3)

/-- The net-ROI component of `calculate_investment_score`
(`src/app.py` lines 174-184). -/
def roi_score (property : Property) (profile : Profile) : ℚ :=
  let net_roi :=
    calculate_net_roi property.annual_rental_income property.maintenance_cost property.price
  if profile.min_roi ≤ net_roi then
    min 25 (15 + (net_roi - profile.min_roi) * 2)
  else
    max 0 (15 - (profile.min_roi - net_roi) * 3)

/-- Python `str.split(',')` on a character list: splitting the empty
string yields `[""]`, and a trailing comma yields a final empty term,
exactly as in CPython. -/
def splitOnComma : List Char → List (List Char)
  | [] => [[]]
  | c :: cs =>
    if c = ',' then
      [] :: splitOnComma cs
    else
      match splitOnComma cs with
      | [] => [[c]]
      | t :: ts => (c :: t) :: ts

/-- Python `str.strip()`: drop whitespace from both ends. -/
def pyStrip (l : List Char) : List Char :=
  ((l.dropWhile Char.isWhitespace).reverse.dropWhile Char.isWhitespace).reverse

/-- Python `needle in haystack` substring test on character lists; the
empty needle is contained in every haystack. -/
def containsSub (needle : List Char) : List Char → Bool
  | [] => needle.isEmpty
  | c :: cs => needle.isPrefixOf (c :: cs) || containsSub needle cs

/-- The location-preference bonus of `calculate_investment_score`
(`src/app.py` lines 186-195): 0 when `preferred_locations` is falsy
(empty / NULL); otherwise split on commas, strip and lowercase each term,
and award 10 when any term occurs in the lowercased property location. -/
def location_bonus (preferred_locations location : List Char) : ℚ :=
  if preferred_locations = [] then 0
  else if ((splitOnComma preferred_locations).map
        (fun loc => (pyStrip loc).map Char.toLower)).any
      (fun pref => containsSub pref (location.map Char.toLower)) then 10
  else 0

/-- `calculate_investment_score` from `src/app.py` lines 127-197: the sum
of the five components, clamped above by `min(100, score)`. -/
def calculate_investment_score (property : Property) (profile : Profile) : ℚ :=
  min 100
    (price_fit property profile +
      risk_match profile.risk_tolerance property.risk_level +
      yield_score property profile +
      roi_score property profile +
      location_bonus profile.preferred_locations property.location)

/-- One scored entry of the recommendation list built by
`get_recommendations` (`src/app.py` lines 349-370): the property enriched
with its derived metrics, the score, and the metrics repeated at top
level as the endpoint does. -/
structure Recommendation where
  property : Property
  score : ℚ
  rental_yield : ℚ
  net_roi : ℚ

/-- Scoring one catalog property against a profile, as the loop body of
`get_recommendations` does (`src/app.py` lines 350-370). -/
def scoreOne (profile : Profile) (property : Property) : Recommendation :=
  { property := property
    score := calculate_investment_score property profile
    rental_yield := calculate_rental_yield property.annual_rental_income property.price
    net_roi :=
      calculate_net_roi property.annual_rental_income property.maintenance_cost
        property.price }

/-- The comparator of `recommendations.sort(key=lambda x: x['score'],
reverse=True)` (`src/app.py` line 373): `a` may stay before `b` exactly
when `b`'s score is at most `a`'s.  Python's sort is stable, and
`reverse=True` keeps equal-score elements in their original order. -/
def recLE (a b : Recommendation) : Bool :=
  decide (b.score ≤ a.score)

/-- The stable descending sort of `src/app.py` line 373. -/
def sortRecs (l : List Recommendation) : List Recommendation :=
  l.mergeSort recLE

/-- The database contents the endpoints read: stored investor profiles
(keyed by id) and the property catalog in table order. -/
structure Store where
  profiles : List (Int × Profile)
  properties : List Property

/-- `SELECT * FROM investor_profiles WHERE id = ?` (`src/app.py` line 334). -/
def lookupProfile (s : Store) (pid : Int) : Option Profile :=
  (s.profiles.find? (fun pr => pr.1 == pid)).map Prod.snd

/-- `SELECT * FROM properties WHERE id = ?` (`src/app.py` line 413). -/
def lookupProperty (s : Store) (pid : Int) : Option Property :=
  s.properties.find? (fun p => p.id == pid)

/-- Python list slicing `l[:k]` for an arbitrary integer bound `k`, as in
`recommendations[:top_n]` (`src/app.py` lines 377 and 396): a nonnegative
bound takes the first `k` elements, a negative bound drops the last `|k|`. -/
def pyTake {α : Type} (k : Int) (l : List α) : List α :=
  if 0 ≤ k then l.take k.toNat else l.take (l.length - (-k).toNat)

/-- The full scored catalog in table order (`src/app.py` lines 346-370). -/
def scoredCatalog (store : Store) (profile : Profile) : List Recommendation :=
  store.properties.map (scoreOne profile)

/-- The scored catalog after the stable descending sort of line 373. -/
def rankedRecommendations (store : Store) (profile : Profile) : List Recommendation :=
  sortRecs (scoredCatalog store profile)

/-- The error outcomes of `get_recommendations`: HTTP 404 `'Profile not
found'` and HTTP 400 `'Profile ID or custom profile required'`
(`src/app.py` lines 337 and 343). -/
inductive RecError where
  | notFound
  | invalidRequest
deriving DecidableEq

/-- The successful response of `get_recommendations` (`src/app.py` lines
394-398), together with the rows the endpoint inserts into the
`recommendations` history table (lines 376-389): exactly the returned
top slice. -/
structure RecResponse where
  recommendations : List Recommendation
  total_analyzed : Nat
  history : List Recommendation

/-- The scoring half of `get_recommendations` once a profile has been
resolved (`src/app.py` lines 346-398). -/
def buildResponse (store : Store) (profile : Profile) (topn : Int) : RecResponse :=
  { recommendations := pyTake topn (rankedRecommendations store profile)
    total_analyzed := (scoredCatalog store profile).length
    history := pyTake topn (rankedRecommendations store profile) }

/-- `get_recommendations` from `src/app.py` lines 322-398.  `profile_id`
and `top_n` model `data.get(...)`; `top_n` missing defaults to 5 and is
otherwise used literally.  The branching mirrors Python truthiness:
`if profile_id:` is false for both a missing id and the id 0, and
`elif custom_profile:` is false for a missing (or empty) custom profile. -/
def get_recommendations (store : Store) (profile_id : Option Int)
    (custom_profile : Option Profile) (top_n : Option Int) :
    Except RecError RecResponse :=
  let topn := top_n.getD 5
  match profile_id with
  | some pid =>
    if pid ≠ 0 then
      match lookupProfile store pid with
      | none => .error .notFound
      | some profile => .ok (buildResponse store profile topn)
    else
      match custom_profile with
      | some profile => .ok (buildResponse store profile topn)
      | none => .error .invalidRequest
  | none =>
    match custom_profile with
    | some profile => .ok (buildResponse store profile topn)
    | none => .error .invalidRequest

/-- One comparison row of `compare_properties` (`src/app.py` lines
415-427).  `maintenance_ratio_pct` is the source's `maintenance_ratio`
field, `maintenance_cost / annual_rental_income * 100`. -/
structure CompareEntry where
  property : Property
  rental_yield : ℚ
  net_roi : ℚ
  price_per_sqft : ℚ
  maintenance_ratio_pct : ℚ

/-- The per-property body of the `compare_properties` loop (`src/app.py`
lines 415-427).  Every division there is unguarded in Python, so a zero
denominator (price for the yield and ROI metrics, size for
`price_per_sqft`, `annual_rental_income` for the maintenance ratio) is
modelled as the `ZeroDivisionError` the interpreter would raise. -/
def compare_entry (p : Property) : Except String CompareEntry :=
  if p.price = 0 ∨ p.size = 0 ∨ p.annual_rental_income = 0 then
    .error "ZeroDivisionError"
  else
    .ok
      { property := p
        rental_yield := calculate_rental_yield p.annual_rental_income p.price
        net_roi := calculate_net_roi p.annual_rental_income p.maintenance_cost p.price
        price_per_sqft := p.price / p.size
        maintenance_ratio_pct := p.maintenance_cost / p.annual_rental_income * 100 }

/-- The lookup-and-compute loop of `compare_properties` (`src/app.py`
lines 412-427): unknown ids are silently skipped, and the first
`ZeroDivisionError` aborts the whole request. -/
def compareLoop (store : Store) : List Int → Except String (List CompareEntry)
  | [] => .ok []
  | pid :: rest =>
    match lookupProperty store pid with
    | none => compareLoop store rest
    | some p =>
      match compare_entry p with
      | .error e => .error e
      | .ok entry => (compareLoop store rest).map (fun l => entry :: l)

/-- `compare_properties` from `src/app.py` lines 400-431: an empty id
list is rejected up front (line 407), otherwise the loop runs. -/
def compare_properties (store : Store) (property_ids : List Int) :
    Except String (List CompareEntry) :=
  if property_ids.isEmpty then .error "Property IDs required"
  else compareLoop store property_ids

/-! ### Concrete test fixtures (used by witnesses and counterexamples) -/

/-- A concrete profile, the first sample profile of `init_db`
(`src/app.py` line 101), with no location preference. -/
def cProfile : Profile :=
  { budget_min := 200000
    budget_max := 500000
    risk_tolerance := .Low
    preferred_locations := []
    min_rental_yield := 5
    min_roi := 3 }

/-- A concrete property, the first sample property of `init_db`
(`src/app.py` line 78). -/
def cProperty : Property :=
  { id := 1
    location := ['E', 'l', 'm']
    price := 450000
    size := 1200
    annual_rental_income := 36000
    maintenance_cost := 4500
    risk_level := .Low }

/-- Further small catalog entries for a five-property store. -/
def cProperty2 : Property :=
  { id := 2, location := ['A'], price := 320000, size := 2000
    annual_rental_income := 28800, maintenance_cost := 6400, risk_level := .Low }

def cProperty3 : Property :=
  { id := 3, location := ['B'], price := 580000, size := 1500
    annual_rental_income := 52200, maintenance_cost := 8700, risk_level := .Medium }

def cProperty4 : Property :=
  { id := 4, location := ['C'], price := 180000, size := 600
    annual_rental_income := 18000, maintenance_cost := 2700, risk_level := .Medium }

def cProperty5 : Property :=
  { id := 5, location := ['D'], price := 220000, size := 1800
    annual_rental_income := 21600, maintenance_cost := 8800, risk_level := .High }

/-- A concrete store with one saved profile and five properties. -/
def cStore : Store :=
  { profiles := [(1, cProfile)]
    properties := [cProperty, cProperty2, cProperty3, cProperty4, cProperty5] }

/-- A property whose `annual_rental_income` is zero: the data model allows
it (`annual_rental_income ≥ 0`), and it makes the `maintenance_ratio`
division of `compare_properties` divide by zero. -/
def cPropertyZero : Property :=
  { id := 99, location := ['Z'], price := 100000, size := 500
    annual_rental_income := 0, maintenance_cost := 3000, risk_level := .High }

/-- A store holding only the zero-income property. -/
def cStoreZ : Store :=
  { profiles := [], properties := [cPropertyZero] }

/-! ### Claims about the metric calculators and score components -/

/-- C3: for price > 0, `calculate_rental_yield` and `calculate_net_roi`
compute exactly `income / price * 100` and
`(income - maintenance) / price * 100`, and the net ROI is negative
exactly when maintenance exceeds income. -/
theorem C3_metric_formulas (annual_rental_income maintenance_cost price : ℚ)
    (hp : 0 < price) :
    calculate_rental_yield annual_rental_income price =
      annual_rental_income / price * 100 ∧
    calculate_net_roi annual_rental_income maintenance_cost price =
      (annual_rental_income - maintenance_cost) / price * 100 ∧
    (calculate_net_roi annual_rental_income maintenance_cost price < 0 ↔
      annual_rental_income < maintenance_cost) := by
  refine ⟨rfl, rfl, ?_⟩
  unfold calculate_net_roi
  rw [div_mul_eq_mul_div, div_neg_iff]
  constructor
  · rintro (⟨-, h2⟩ | ⟨h1, -⟩)
    · exact absurd h2 (not_lt.mpr hp.le)
    · nlinarith
  · intro h
    exact Or.inr ⟨by nlinarith, hp⟩

/-- Witness for C3 at the sample property values 36000 / 4500 / 450000. -/
theorem C3_metric_formulas_witness :
    calculate_rental_yield 36000 450000 = 36000 / 450000 * 100 ∧
    calculate_net_roi 36000 4500 450000 = (36000 - 4500) / 450000 * 100 ∧
    (calculate_net_roi 36000 4500 450000 < 0 ↔ (36000 : ℚ) < 4500) :=
  C3_metric_formulas 36000 4500 450000 (by norm_num)

/-- C5: the risk-alignment component is the fixed 3-by-3 table: every
diagonal pair scores 20; Low tolerance scores 10 against Medium and 5
against High; Medium tolerance scores 15 against Low and 15 against High;
High tolerance scores 10 against Low and 15 against Medium. -/
theorem C5_risk_table :
    (∀ t : RiskLevel, risk_match t t = 20) ∧
    risk_match .Low .Medium = 10 ∧ risk_match .Low .High = 5 ∧
    risk_match .Medium .Low = 15 ∧ risk_match .Medium .High = 15 ∧
    risk_match .High .Low = 10 ∧ risk_match .High .Medium = 15 := by
  refine ⟨fun t => ?_, rfl, rfl, rfl, rfl, rfl, rfl⟩
  cases t <;> rfl

/-- C6: the yield component is `min(30, 20 + excess * 2)` when the yield
meets the profile minimum and `max(0, 20 - gap * 3)` otherwise, and the
ROI component is `min(25, 15 + excess * 2)` respectively
`max(0, 15 - gap * 3)`. -/
theorem C6_yield_roi_components (property : Property) (profile : Profile) :
    (yield_score property profile =
      if profile.min_rental_yield ≤
          calculate_rental_yield property.annual_rental_income property.price then
        min 30 (20 + (calculate_rental_yield property.annual_rental_income property.price -
          profile.min_rental_yield) * 2)
      else
        max 0 (20 - (profile.min_rental_yield -
          calculate_rental_yield property.annual_rental_income property.price) * 3)) ∧
    (roi_score property profile =
      if profile.min_roi ≤ calculate_net_roi property.annual_rental_income
          property.maintenance_cost property.price then
        min 25 (15 + (calculate_net_roi property.annual_rental_income
          property.maintenance_cost property.price - profile.min_roi) * 2)
      else
        max 0 (15 - (profile.min_roi - calculate_net_roi property.annual_rental_income
          property.maintenance_cost property.price) * 3)) :=
  ⟨rfl, rfl⟩

/-- C1: for any property and profile (risk fields in the enumerated
levels by typing, price > 0), each of the five score components is
non-negative, and the total investment score lies in [0, 100]: clamped
above by `min(100, _)` and bounded below because the summands are all
non-negative. -/
theorem C1_score_bounds (property : Property) (profile : Profile)
    (hp : 0 < property.price) :
    0 ≤ price_fit property profile ∧
    0 ≤ risk_match profile.risk_tolerance property.risk_level ∧
    0 ≤ yield_score property profile ∧
    0 ≤ roi_score property profile ∧
    0 ≤ location_bonus profile.preferred_locations property.location ∧
    0 ≤ calculate_investment_score property profile ∧
    calculate_investment_score property profile ≤ 100 := by
  have hpf : 0 ≤ price_fit property profile := by
    unfold price_fit
    split
    · norm_num
    · exact le_max_left 0 _
  have hrm : 0 ≤ risk_match profile.risk_tolerance property.risk_level := by
    cases profile.risk_tolerance <;> cases property.risk_level <;>
      norm_num [risk_match]
  have hys : 0 ≤ yield_score property profile := by
    simp only [yield_score]
    split
    · rename_i h
      exact le_min (by norm_num) (by nlinarith)
    · exact le_max_left 0 _
  have hros : 0 ≤ roi_score property profile := by
    simp only [roi_score]
    split
    · rename_i h
      exact le_min (by norm_num) (by nlinarith)
    · exact le_max_left 0 _
  have hlb : 0 ≤ location_bonus profile.preferred_locations property.location := by
    unfold location_bonus
    split
    · exact le_refl 0
    · split
      · norm_num
      · exact le_refl 0
  have hsum : 0 ≤ price_fit property profile +
      risk_match profile.risk_tolerance property.risk_level +
      yield_score property profile + roi_score property profile +
      location_bonus profile.preferred_locations property.location :=
    add_nonneg (add_nonneg (add_nonneg (add_nonneg hpf hrm) hys) hros) hlb
  refine ⟨hpf, hrm, hys, hros, hlb, ?_, ?_⟩
  · exact le_min (by norm_num) hsum
  · exact min_le_left _ _

/-- Witness for C1 at the concrete sample property and profile. -/
theorem C1_score_bounds_witness :
    0 ≤ calculate_investment_score cProperty cProfile ∧
    calculate_investment_score cProperty cProfile ≤ 100 :=
  ⟨(C1_score_bounds cProperty cProfile (by norm_num [cProperty])).2.2.2.2.2.1,
   (C1_score_bounds cProperty cProfile (by norm_num [cProperty])).2.2.2.2.2.2⟩

/-- C4: for price > 0 and budget_max > 0, the price-fit component equals
25 exactly when the price lies in the budget range, and otherwise it is
`max(0, 25 - (r - 1) * 50)` with `r = price / budget_max` above the range
and `r = budget_min / price` below it. -/
theorem C4_price_fit_characterization (property : Property) (profile : Profile)
    (hp : 0 < property.price) (hmax : 0 < profile.budget_max) :
    (price_fit property profile = 25 ↔
      profile.budget_min ≤ property.price ∧
        property.price ≤ profile.budget_max) ∧
    (¬(profile.budget_min ≤ property.price ∧
        property.price ≤ profile.budget_max) →
      price_fit property profile =
        max 0 (25 -
          ((if profile.budget_max < property.price then
              property.price / profile.budget_max
            else
              profile.budget_min / property.price) - 1) * 50)) := by
  constructor
  · unfold price_fit
    split
    · rename_i h
      exact iff_of_true rfl h
    · rename_i h
      refine iff_of_false (ne_of_lt ?_) h
      have h1r : 1 <
          (if profile.budget_max < property.price then
            property.price / profile.budget_max
          else
            profile.budget_min / property.price) := by
        split
        · rename_i hgt
          exact (one_lt_div hmax).mpr hgt
        · rename_i hng
          have hle : property.price ≤ profile.budget_max := not_lt.mp hng
          have hlt : property.price < profile.budget_min := by
            rcases not_and_or.mp h with h1 | h2
            · exact lt_of_not_le h1
            · exact absurd hle h2
          exact (one_lt_div hp).mpr hlt
      apply max_lt (by norm_num)
      nlinarith
  · intro h
    unfold price_fit
    rw [if_neg h]

/-- Witness for C4: the sample price 450000 lies inside
[200000, 500000], so the price-fit component is the full 25. -/
theorem C4_price_fit_witness : price_fit cProperty cProfile = 25 :=
  (C4_price_fit_characterization cProperty cProfile (by norm_num [cProperty])
      (by norm_num [cProfile])).1.mpr
    ⟨by norm_num [cProperty, cProfile], by norm_num [cProperty, cProfile]⟩

/-- The Python substring test succeeds for the empty needle on every
haystack, as `'' in s` does. -/
theorem containsSub_empty_needle (l : List Char) : containsSub [] l = true := by
  cases l <;> rfl

/-- C10: if the (non-empty) `preferred_locations` string yields an empty
term after comma-splitting, stripping and lowercasing — e.g. a trailing
comma — every property gets the full 10-point location bonus, because the
empty string is a substring of every location; the bonus computation is
skipped (bonus 0) exactly when `preferred_locations` is empty or absent. -/
theorem C10_empty_term_location_bonus :
    (∀ preferred location : List Char, preferred ≠ [] →
      [] ∈ (splitOnComma preferred).map (fun t => (pyStrip t).map Char.toLower) →
      location_bonus preferred location = 10) ∧
    (∀ location : List Char, location_bonus [] location = 0) := by
  constructor
  · intro preferred location hne hmem
    unfold location_bonus
    rw [if_neg hne, if_pos]
    rw [List.any_eq_true]
    exact ⟨[], hmem, containsSub_empty_needle _⟩
  · intro location
    rfl

/-- Witness for C10: the preference string "Downtown," has a trailing
comma, so a property located at "Elm" still receives the bonus. -/
theorem C10_empty_term_location_bonus_witness :
    location_bonus ['D', 'o', 'w', 'n', 't', 'o', 'w', 'n', ','] ['E', 'l', 'm'] = 10 :=
  C10_empty_term_location_bonus.1 _ _ (by decide) (by decide)

/-! ### The recommendation pipeline -/

/-- The descending score comparator is transitive. -/
theorem recLE_trans (a b c : Recommendation) (h1 : recLE a b = true)
    (h2 : recLE b c = true) : recLE a c = true := by
  simp only [recLE, decide_eq_true_eq] at *
  exact le_trans h2 h1

/-- The descending score comparator is total. -/
theorem recLE_total (a b : Recommendation) : (recLE a b || recLE b a) = true := by
  simp only [recLE, Bool.or_eq_true, decide_eq_true_eq]
  exact le_total b.score a.score

/-- The sorted catalog is in descending score order. -/
theorem rankedRecommendations_pairwise (store : Store) (profile : Profile) :
    (rankedRecommendations store profile).Pairwise
      (fun a b => b.score ≤ a.score) := by
  have h := @List.sorted_mergeSort Recommendation recLE recLE_trans recLE_total
    (scoredCatalog store profile)
  refine List.Pairwise.imp ?_ h
  intro a b hab
  simpa [recLE] using hab

/-- The sort permutes the scored catalog, so its length is the catalog
size. -/
theorem rankedRecommendations_length (store : Store) (profile : Profile) :
    (rankedRecommendations store profile).length = store.properties.length := by
  simp [rankedRecommendations, sortRecs, List.length_mergeSort, scoredCatalog]

/-- Stability of the sort: the elements carrying any fixed score appear in
the ranked list in exactly their catalog order. -/
theorem rankedRecommendations_stable (store : Store) (profile : Profile) (c : ℚ) :
    (rankedRecommendations store profile).filter (fun x => decide (x.score = c)) =
      (scoredCatalog store profile).filter (fun x => decide (x.score = c)) := by
  set p : Recommendation → Bool := fun x => decide (x.score = c) with hpdef
  set l := scoredCatalog store profile with hldef
  have hsub : (l.filter p).Sublist l := List.filter_sublist l
  have hpw : (l.filter p).Pairwise (fun a b => recLE a b = true) := by
    apply List.pairwise_of_forall_mem_list
    intro a ha b hb
    have ha2 : a.score = c := by
      have := List.of_mem_filter ha
      simpa [hpdef] using this
    have hb2 : b.score = c := by
      have := List.of_mem_filter hb
      simpa [hpdef] using this
    simp [recLE, ha2, hb2]
  have hst : (l.filter p).Sublist (l.mergeSort recLE) :=
    List.sublist_mergeSort recLE_trans recLE_total hpw hsub
  have hid : (l.filter p).filter p = l.filter p := by
    rw [List.filter_eq_self]
    intro a ha
    exact List.of_mem_filter ha
  have hsub2 : (l.filter p).Sublist ((l.mergeSort recLE).filter p) := by
    have h2 := hst.filter p
    rwa [hid] at h2
  have hlen : ((l.mergeSort recLE).filter p).length = (l.filter p).length :=
    ((List.mergeSort_perm l recLE).filter p).length_eq
  have : l.filter p = (l.mergeSort recLE).filter p :=
    hsub2.eq_of_length hlen.symm
  simpa [rankedRecommendations, sortRecs, hldef] using this.symm

/-- Inversion for the success path of `get_recommendations`: an `ok`
result is the `buildResponse` of some resolved profile at the effective
`top_n`. -/
theorem get_recommendations_ok {store : Store} {profile_id : Option Int}
    {custom_profile : Option Profile} {top_n : Option Int} {r : RecResponse}
    (h : get_recommendations store profile_id custom_profile top_n = .ok r) :
    ∃ profile, r = buildResponse store profile (top_n.getD 5) := by
  simp only [get_recommendations] at h
  split at h
  · split at h
    · split at h
      · exact absurd h (by simp)
      · exact ⟨_, (Except.ok.inj h).symm⟩
    · split at h
      · exact ⟨_, (Except.ok.inj h).symm⟩
      · exact absurd h (by simp)
  · split at h
    · exact ⟨_, (Except.ok.inj h).symm⟩
    · exact absurd h (by simp)

/-- The response always reports the full catalog size. -/
theorem buildResponse_total (store : Store) (profile : Profile) (topn : Int) :
    (buildResponse store profile topn).total_analyzed = store.properties.length := by
  simp [buildResponse, scoredCatalog]

/-- The returned top slice is a sublist of the ranked list. -/
theorem buildResponse_rec_sublist (store : Store) (profile : Profile) (topn : Int) :
    (buildResponse store profile topn).recommendations.Sublist
      (rankedRecommendations store profile) := by
  simp only [buildResponse, pyTake]
  split
  · exact List.take_sublist _ _
  · exact List.take_sublist _ _

/-- Length of a Python slice `l[:k]`. -/
theorem pyTake_length {α : Type} (k : Int) (l : List α) :
    (pyTake k l).length =
      if 0 ≤ k then min k.toNat l.length else l.length - (-k).toNat := by
  unfold pyTake
  split
  · simp [List.length_take]
  · simp only [List.length_take]
    omega

/-- C7: the recommendation pipeline sorts by score descending with a
stable sort — the ranked list is pairwise descending, and the entries of
any fixed score keep their catalog order — and every successful response
has `total_analyzed` equal to the full catalog size, with its returned
slice in descending score order. -/
theorem C7_sort_stable_total (store : Store) (profile : Profile)
    (profile_id : Option Int) (custom_profile : Option Profile)
    (top_n : Option Int) (r : RecResponse) :
    (rankedRecommendations store profile).Pairwise (fun a b => b.score ≤ a.score) ∧
    (∀ c : ℚ,
      (rankedRecommendations store profile).filter (fun x => decide (x.score = c)) =
        (scoredCatalog store profile).filter (fun x => decide (x.score = c))) ∧
    (get_recommendations store profile_id custom_profile top_n = .ok r →
      r.recommendations.Pairwise (fun a b => b.score ≤ a.score) ∧
      r.total_analyzed = store.properties.length) := by
  refine ⟨rankedRecommendations_pairwise store profile,
    fun c => rankedRecommendations_stable store profile c, fun h => ?_⟩
  obtain ⟨p, rfl⟩ := get_recommendations_ok h
  constructor
  · exact List.Pairwise.sublist (buildResponse_rec_sublist store p _)
      (rankedRecommendations_pairwise store p)
  · exact buildResponse_total store p _

/-- Witness for C7 at the concrete store and profile. -/
theorem C7_sort_stable_total_witness :
    (buildResponse cStore cProfile 5).recommendations.Pairwise
      (fun a b => b.score ≤ a.score) ∧
    (buildResponse cStore cProfile 5).total_analyzed = cStore.properties.length :=
  (C7_sort_stable_total cStore cProfile none (some cProfile) none
    (buildResponse cStore cProfile 5)).2.2 rfl

/-- Counterexample to C2: with a five-property catalog, a custom profile,
and `top_n = 0`, the endpoint returns zero recommendations, not five —
non-positive `top_n` is used literally as a slice bound
(`recommendations[:0]` is empty), never normalized to the default. -/
theorem C2_counterexample :
    cStore.properties.length = 5 ∧
    (get_recommendations cStore none (some cProfile) (some 0)).map
      (fun r => r.recommendations.length) = .ok 0 := by
  exact ⟨rfl, rfl⟩

/-- C2 amended: a missing `top_n` yields `min(5, catalog size)`
recommendations, and a non-positive `top_n` is applied literally with
Python slice semantics — `top_n = 0` yields no recommendations and a
negative `top_n` drops that many entries from the end of the ranked
catalog. -/
theorem C2_amended_topn (store : Store) (profile_id : Option Int)
    (custom_profile : Option Profile) (r : RecResponse) :
    (get_recommendations store profile_id custom_profile none = .ok r →
      r.recommendations.length = min 5 store.properties.length) ∧
    (∀ k : Int, k ≤ 0 →
      get_recommendations store profile_id custom_profile (some k) = .ok r →
      r.recommendations.length =
        if k = 0 then 0 else store.properties.length - (-k).toNat) := by
  constructor
  · intro h
    obtain ⟨p, rfl⟩ := get_recommendations_ok h
    simp only [buildResponse, pyTake_length, rankedRecommendations_length,
      Option.getD]
    rfl
  · intro k hk h
    obtain ⟨p, rfl⟩ := get_recommendations_ok h
    simp only [buildResponse, pyTake_length, rankedRecommendations_length,
      Option.getD]
    by_cases hk0 : k = 0
    · subst hk0
      norm_num
    · have hkneg : ¬(0 ≤ k) := by omega
      rw [if_neg hkneg, if_neg hk0]

/-- Witness for C2 amended, at the concrete store with a missing `top_n`. -/
theorem C2_amended_topn_witness :
    (buildResponse cStore cProfile 5).recommendations.length =
      min 5 cStore.properties.length :=
  (C2_amended_topn cStore none (some cProfile)
    (buildResponse cStore cProfile 5)).1 rfl

/-- Counterexample to C8: the request `profile_id = 0` supplies a profile
id that resolves to no stored profile, yet the endpoint answers
InvalidRequest, not NotFound — Python `if profile_id:` treats the id 0 as
falsy, the same as a missing id. -/
theorem C8_counterexample :
    lookupProfile cStore 0 = none ∧
    get_recommendations cStore (some 0) none none = .error .invalidRequest := by
  exact ⟨rfl, rfl⟩

/-- C8 amended: a supplied nonzero profile id that resolves to no stored
profile fails with NotFound; a missing id — or the falsy id 0 — with no
custom profile fails with InvalidRequest; in both failure cases the
result is an error value carrying no recommendations and no history
rows. -/
theorem C8_amended_profile_resolution (store : Store)
    (custom_profile : Option Profile) (top_n : Option Int) :
    (∀ pid : Int, pid ≠ 0 → lookupProfile store pid = none →
      get_recommendations store (some pid) custom_profile top_n =
        .error .notFound) ∧
    (∀ profile_id : Option Int, (profile_id = none ∨ profile_id = some 0) →
      custom_profile = none →
      get_recommendations store profile_id custom_profile top_n =
        .error .invalidRequest) := by
  constructor
  · intro pid hpid hlk
    simp only [get_recommendations]
    rw [if_pos hpid, hlk]
  · rintro profile_id (rfl | rfl) rfl
    · rfl
    · rfl

/-- Witness for C8 amended: the unknown id 7 gives NotFound, and a
request with neither id nor custom profile gives InvalidRequest. -/
theorem C8_amended_profile_resolution_witness :
    get_recommendations cStore (some 7) none none = .error .notFound ∧
    get_recommendations cStore none none none = .error .invalidRequest :=
  ⟨(C8_amended_profile_resolution cStore none none).1 7 (by decide) rfl,
   (C8_amended_profile_resolution cStore none none).2 none (Or.inl rfl) rfl⟩

/-! ### The comparison endpoint -/

/-- Counterexample to C9: comparing a property whose
`annual_rental_income` is 0 makes the unguarded `maintenance_ratio`
division raise, so the request dies with a `ZeroDivisionError` instead of
returning a structured result. -/
theorem C9_counterexample :
    cPropertyZero.annual_rental_income = 0 ∧
    compare_properties cStoreZ [99] = .error "ZeroDivisionError" := by
  exact ⟨rfl, rfl⟩

/-- `Except.map` preserves success. -/
theorem except_isOk_map {ε α β : Type} (f : α → β) (e : Except ε α) :
    (e.map f).isOk = e.isOk := by
  cases e <;> rfl

/-- The comparison loop succeeds exactly when every requested id that
resolves to a property has nonzero price, size and rental income — i.e.
when none of its unguarded divisions has a zero denominator. -/
theorem compareLoop_ok_iff (store : Store) (ids : List Int) :
    (compareLoop store ids).isOk = true ↔
      ∀ pid ∈ ids, ∀ p, lookupProperty store pid = some p →
        p.price ≠ 0 ∧ p.size ≠ 0 ∧ p.annual_rental_income ≠ 0 := by
  induction ids with
  | nil => exact iff_of_true rfl (by simp)
  | cons pid rest ih =>
    simp only [compareLoop]
    cases hlk : lookupProperty store pid with
    | none =>
      rw [ih, List.forall_mem_cons]
      simp [hlk]
    | some p =>
      dsimp only
      by_cases hz : p.price = 0 ∨ p.size = 0 ∨ p.annual_rental_income = 0
      · rw [show compare_entry p = .error "ZeroDivisionError" from by
          simp [compare_entry, hz]]
        refine iff_of_false (by simp [Except.isOk, Except.toBool]) ?_
        intro hall
        obtain ⟨hp1, hp2, hp3⟩ := hall pid (List.mem_cons_self pid rest) p hlk
        rcases hz with h | h | h
        · exact hp1 h
        · exact hp2 h
        · exact hp3 h
      · push_neg at hz
        obtain ⟨h1, h2, h3⟩ := hz
        rw [show compare_entry p = .ok
            { property := p
              rental_yield := calculate_rental_yield p.annual_rental_income p.price
              net_roi := calculate_net_roi p.annual_rental_income
                p.maintenance_cost p.price
              price_per_sqft := p.price / p.size
              maintenance_ratio_pct :=
                p.maintenance_cost / p.annual_rental_income * 100 } from by
          simp [compare_entry, h1, h2, h3]]
        rw [except_isOk_map, ih, List.forall_mem_cons]
        constructor
        · intro hrest
          refine ⟨?_, hrest⟩
          intro q hq
          rw [hlk, Option.some.injEq] at hq
          subst hq
          exact ⟨h1, h2, h3⟩
        · exact fun hall => hall.2

/-- C9 amended: the `maintenance_ratio` division is unguarded, so the
comparison of a non-empty id list returns a structured result exactly
when every resolved property has nonzero price, size and
`annual_rental_income`; a resolved property with zero rental income makes
the whole request fail with a `ZeroDivisionError` instead of a structured
result. -/
theorem C9_amended_compare_guard (store : Store) (property_ids : List Int)
    (h : property_ids ≠ []) :
    (compare_properties store property_ids).isOk = true ↔
      ∀ pid ∈ property_ids, ∀ p, lookupProperty store pid = some p →
        p.price ≠ 0 ∧ p.size ≠ 0 ∧ p.annual_rental_income ≠ 0 := by
  unfold compare_properties
  have hne : ¬(property_ids.isEmpty = true) := by
    simpa [List.isEmpty_iff] using h
  rw [if_neg hne]
  exact compareLoop_ok_iff store property_ids

/-- Witness for C9 amended: comparing the nonzero sample property
succeeds. -/
theorem C9_amended_compare_guard_witness :
    (compare_properties cStore [1]).isOk = true := by
  refine (C9_amended_compare_guard cStore [1] (by simp)).mpr ?_
  intro pid hpid p hp
  rw [List.mem_singleton] at hpid
  subst hpid
  rw [show lookupProperty cStore 1 = some cProperty from rfl,
    Option.some.injEq] at hp
  subst hp
  refine ⟨by norm_num [cProperty], by norm_num [cProperty],
    by norm_num [cProperty]⟩
